import Mathlib

/-!
Shallow embedding of the three CLI scripts of this repository:
`src/recorder/recorder.py`, `src/recorder/inferencer_example.py` and
`src/detector/VW2_ONYX.py`.

All three scripts share the same shape: authenticate, fetch the camera list,
resolve a camera id and a record length, open a gRPC frame stream and consume
it in a `for response in responses` loop, then (in two of the three scripts)
release resources in a `finally` block.

Modelling conventions:
* Wall-clock time is modelled on an integral grid (`Int`).  Every call to
  `time.time()` made while a given frame is being handled is identified with
  that frame's arrival instant.  On this grid Python's `round(x, 5)` is the
  identity, so the logged frametime is the exact difference of two instants.
* A frame carries an opaque payload identifier for its encoded bytes and a
  flag `decodeOk` telling whether `cv2.imdecode` succeeds on those bytes.
  `cv2.imdecode` returns `None` on a frame that fails to decode, and the very
  next library call on that `None` value (`video_writer.write` in
  recorder.py, the detector invocation in the other scripts) raises; since no
  script has per-frame exception handling, that exception terminates the
  streaming loop and lands in the loop-level `except` handler.
* A transport-level gRPC error surfaces while pulling the next response from
  the iterator; it is modelled by the flag `errAfter`: after the listed
  frames, iteration raises instead of ending normally.
* Every script ends by falling off the end of the module: exceptions around
  the streaming loop are caught (`traceback.print_exc()`) and never
  re-raised, so the process exit status of the streaming phase is 0.
* Python's bare `exit()` raises `SystemExit(None)`, which terminates the
  process with exit status 0.
-/

namespace VW2

/-- A camera descriptor as returned by the camera directory service: a JSON
object with (at least) the string fields `id` and `name`
(recorder.py line 52 and `camera_name_for_id`). -/
structure Camera where
  id : String
  name : String
deriving DecidableEq

/-- One streamed frame as consumed by the loops of recorder.py and
VW2_ONYX.py: its arrival instant (the value of `time.time()` during its loop
iteration), an opaque identifier of its encoded bytes (`response.frame`), and
whether `cv2.imdecode` succeeds on those bytes. -/
structure Frame where
  arrival : Int
  payload : Nat
  decodeOk : Bool
deriving DecidableEq

/-- One streamed frame as consumed by the loop of inferencer_example.py; in
addition to the fields of `Frame` it records whether
`cv2.waitKey(25) & 0xFF == ord('q')` holds during its iteration (the user
pressed the stop key while this frame was on screen). -/
structure InfFrame where
  arrival : Int
  payload : Nat
  decodeOk : Bool
  qKey : Bool
deriving DecidableEq

/-- Why a streaming loop stopped. -/
inductive Reason where
  /-- The server ended the stream; the `for` loop finished normally. -/
  | exhausted
  /-- `time.time() - start_time > record_length` held after a frame. -/
  | durationExceeded
  /-- `cv2.waitKey(25) & 0xFF == ord('q')` held (inferencer only). -/
  | userStop
  /-- An exception reached the `except` handler around the loop. -/
  | errored
deriving DecidableEq

/-- Outcome of the streaming phase of recorder.py (lines 136-161). -/
structure RecorderResult where
  /-- Frames whose loop-body iteration started, in order. -/
  processed : List Frame
  /-- Payloads for which `video_writer.write` received a decoded image. -/
  written : List Nat
  /-- Frametime values appended to the `.frametimes` file, in order. -/
  logLines : List Int
  /-- The value of `count` when the loop stopped. -/
  count : Nat
  /-- The last `time.time()` instant observed in the loop. -/
  endTime : Int
  reason : Reason
  /-- Number of `video_writer.release()` invocations (the `finally` block). -/
  finalizeCalls : Nat
  /-- Process exit status of the streaming phase. -/
  exitCode : Nat
deriving DecidableEq

/-- The streaming loop of recorder.py lines 140-161:

    try:
        for response in responses:
            frame_time = round(time.time() - last_frame_time, 5)
            if log_frametimes: f_logger(frame_time)
            last_frame_time = time.time()
            video_writer.write(cv2.imdecode(...))
            count += 1
            if time.time() - start_time > record_length: break
    except Exception as e:
        traceback.print_exc()
    finally:
        video_writer.release()
        ...

A frame with `decodeOk = false` makes `cv2.imdecode` return `None`, so
`video_writer.write(None)` raises after the frametime was already logged;
the exception is caught and only printed, then the `finally` block runs and
the script falls off its end (exit status 0).  `errAfter = true` means the
transport raises while pulling the frame after the listed ones. -/
def recorderLoop (recordLength startTime : Int) (logFrametimes : Bool)
    (frames : List Frame) (errAfter : Bool)
    (count : Nat) (lastFrameTime : Int)
    (processed : List Frame) (written : List Nat) (lines : List Int) :
    RecorderResult :=
  match frames with
  | [] =>
      { processed := processed, written := written, logLines := lines,
        count := count, endTime := lastFrameTime,
        reason := if errAfter then Reason.errored else Reason.exhausted,
        finalizeCalls := 1, exitCode := 0 }
  | f :: rest =>
      let frameTime := f.arrival - lastFrameTime
      let lines' := if logFrametimes then lines ++ [frameTime] else lines
      let processed' := processed ++ [f]
      if f.decodeOk then
        let written' := written ++ [f.payload]
        let count' := count + 1
        if recordLength < f.arrival - startTime then
          { processed := processed', written := written', logLines := lines',
            count := count', endTime := f.arrival,
            reason := Reason.durationExceeded, finalizeCalls := 1, exitCode := 0 }
        else
          recorderLoop recordLength startTime logFrametimes rest errAfter
            count' f.arrival processed' written' lines'
      else
        { processed := processed', written := written, logLines := lines',
          count := count, endTime := f.arrival,
          reason := Reason.errored, finalizeCalls := 1, exitCode := 0 }

/-- A full run of the recorder.py streaming phase: `count = 0`,
`start_time = last_frame_time = time.time()` (lines 136-138), then the loop. -/
def recorderRun (recordLength startTime : Int) (logFrametimes : Bool)
    (frames : List Frame) (errAfter : Bool) : RecorderResult :=
  recorderLoop recordLength startTime logFrametimes frames errAfter
    0 startTime [] [] []

/-- Outcome of the streaming phase of inferencer_example.py (lines 63-103). -/
structure InferencerResult where
  processed : List InfFrame
  /-- Payloads whose annotated image `video_writer.write` received. -/
  written : List Nat
  /-- Payloads whose annotated image `cv2.imshow` received. -/
  displayed : List Nat
  logLines : List Int
  count : Nat
  endTime : Int
  reason : Reason
  /-- Number of `video_writer.release()` invocations (the `finally` block). -/
  videoFinalizeCalls : Nat
  /-- Number of `cv2.destroyAllWindows()` invocations (the `finally` block). -/
  windowFinalizeCalls : Nat
  exitCode : Nat
deriving DecidableEq

/-- The streaming loop of inferencer_example.py lines 74-103: per frame it
logs the frametime, decodes (`decodeOk = false` makes the detector call on
`None` raise), writes and shows the annotated image, breaks on the `q` key
BEFORE `count += 1`, then increments `count` and checks the duration.  The
`finally` block calls `video_writer.release()` and `cv2.destroyAllWindows()`
once on every path, and the caught exception is only printed (exit 0). -/
def inferencerLoop (recordLength startTime : Int) (logFrametimes : Bool)
    (frames : List InfFrame) (errAfter : Bool)
    (count : Nat) (lastFrameTime : Int)
    (processed : List InfFrame) (written displayed : List Nat)
    (lines : List Int) : InferencerResult :=
  match frames with
  | [] =>
      { processed := processed, written := written, displayed := displayed,
        logLines := lines, count := count, endTime := lastFrameTime,
        reason := if errAfter then Reason.errored else Reason.exhausted,
        videoFinalizeCalls := 1, windowFinalizeCalls := 1, exitCode := 0 }
  | f :: rest =>
      let frameTime := f.arrival - lastFrameTime
      let lines' := if logFrametimes then lines ++ [frameTime] else lines
      let processed' := processed ++ [f]
      if f.decodeOk then
        let written' := written ++ [f.payload]
        let displayed' := displayed ++ [f.payload]
        if f.qKey then
          { processed := processed', written := written',
            displayed := displayed', logLines := lines', count := count,
            endTime := f.arrival, reason := Reason.userStop,
            videoFinalizeCalls := 1, windowFinalizeCalls := 1, exitCode := 0 }
        else
          let count' := count + 1
          if recordLength < f.arrival - startTime then
            { processed := processed', written := written',
              displayed := displayed', logLines := lines', count := count',
              endTime := f.arrival, reason := Reason.durationExceeded,
              videoFinalizeCalls := 1, windowFinalizeCalls := 1, exitCode := 0 }
          else
            inferencerLoop recordLength startTime logFrametimes rest errAfter
              count' f.arrival processed' written' displayed' lines'
      else
        { processed := processed', written := written, displayed := displayed,
          logLines := lines', count := count, endTime := f.arrival,
          reason := Reason.errored,
          videoFinalizeCalls := 1, windowFinalizeCalls := 1, exitCode := 0 }

/-- A full run of the inferencer_example.py streaming phase (lines 63-65 set
`count = 0` and `start_time = last_frame_time = time.time()`). -/
def inferencerRun (recordLength startTime : Int) (logFrametimes : Bool)
    (frames : List InfFrame) (errAfter : Bool) : InferencerResult :=
  inferencerLoop recordLength startTime logFrametimes frames errAfter
    0 startTime [] [] [] []

/-- Outcome of the streaming phase of VW2_ONYX.py (lines 107-115). -/
structure OnyxResult where
  processed : List Frame
  /-- Payloads whose annotated image `cv2.imshow` received. -/
  displayed : List Nat
  reason : Reason
  /-- Number of `cv2.destroyAllWindows()` invocations.  The script has no
  `finally` block and never calls `cv2.destroyAllWindows()`, so this is 0 on
  every path. -/
  windowFinalizeCalls : Nat
  exitCode : Nat
deriving DecidableEq

/-- The streaming loop of VW2_ONYX.py lines 107-115: per frame it decodes
(`decodeOk = false` makes the detector call on `None` raise), runs the
detector, shows the annotated image and calls `cv2.waitKey(1)` whose result
is ignored.  There is no count, no duration check, no `finally` block and no
window teardown; the `except` handler only prints the traceback. -/
def onyxLoop (frames : List Frame) (errAfter : Bool)
    (processed : List Frame) (displayed : List Nat) : OnyxResult :=
  match frames with
  | [] =>
      { processed := processed, displayed := displayed,
        reason := if errAfter then Reason.errored else Reason.exhausted,
        windowFinalizeCalls := 0, exitCode := 0 }
  | f :: rest =>
      let processed' := processed ++ [f]
      if f.decodeOk then
        onyxLoop rest errAfter processed' (displayed ++ [f.payload])
      else
        { processed := processed', displayed := displayed,
          reason := Reason.errored, windowFinalizeCalls := 0, exitCode := 0 }

/-- A full run of the VW2_ONYX.py streaming phase. -/
def onyxRun (frames : List Frame) (errAfter : Bool) : OnyxResult :=
  onyxLoop frames errAfter [] []

/-- The HTTP response of `GET {CAMERASERVICE_URL}/v1/cameras`. -/
structure DirectoryResponse where
  status : Nat
  cameras : List Camera
deriving DecidableEq

/-- `fetch_cameras` (recorder.py lines 44-52, identical in the other two
scripts): on a non-200 status it prints a message and calls bare `exit()`,
i.e. raises `SystemExit(None)`, which terminates the process with exit
status 0; the error value is that exit status. -/
def fetch_cameras (resp : DirectoryResponse) : Except Nat (List Camera) :=
  if resp.status ≠ 200 then Except.error 0 else Except.ok resp.cameras

/-- What has happened by the time recorder.py either dies during startup or
reaches the streaming loop. -/
structure StartupOutcome where
  /-- Whether `grpc_stub.Stream(...)` (line 135) was reached. -/
  streamOpened : Bool
  /-- Whether `cv2.VideoWriter(f'{file_name}.avi', ...)` (line 127) was
  reached. -/
  outputFileCreated : Bool
  /-- `some c` when the process exited with status `c` during startup,
  `none` when startup completed and streaming begins. -/
  exitCode : Option Nat
deriving DecidableEq

/-- The startup path of recorder.py around `fetch_cameras` (line 101): when
the directory call fails the process exits inside `fetch_cameras`, before
the video writer (line 127) is created and before the stream (line 135) is
opened; when it succeeds the script goes on to create both. -/
def recorderStartup (resp : DirectoryResponse) : StartupOutcome :=
  match fetch_cameras resp with
  | Except.error c =>
      { streamOpened := false, outputFileCreated := false, exitCode := some c }
  | Except.ok _ =>
      { streamOpened := true, outputFileCreated := true, exitCode := none }

/-- The startup path of inferencer_example.py around `fetch_cameras`
(line 41): when the directory call fails the process exits inside
`fetch_cameras`, before the stream (line 62) is opened and before the video
writer (line 70) is created; when it succeeds `main` goes on to open both. -/
def inferencerStartup (resp : DirectoryResponse) : StartupOutcome :=
  match fetch_cameras resp with
  | Except.error c =>
      { streamOpened := false, outputFileCreated := false, exitCode := some c }
  | Except.ok _ =>
      { streamOpened := true, outputFileCreated := true, exitCode := none }

/-- `camera_name_for_id` (recorder.py lines 54-56):
`next(filter(lambda c: c['id'] == str(id), cameras), None)` takes the first
camera whose string `id` equals `str(id)`, and the name of that camera is
returned, `None` when no camera matches. -/
def camera_name_for_id (cameras : List Camera) (i : Int) : Option String :=
  (cameras.find? (fun c => c.id == toString i)).map (fun c => c.name)

/-- Python's `str` applied to an optional camera name inside the f-string of
recorder.py line 111: `None` renders as the text "None". -/
def pyStrOpt : Option String → String
  | none => "None"
  | some s => s

/-- The output base name of recorder.py line 111:
`f"{timestamp}_id{camera_id}_{camera_name}"`. -/
def file_name (ts : String) (cameraId : Int) (cameraName : Option String) :
    String :=
  ts ++ "_id" ++ toString cameraId ++ "_" ++ pyStrOpt cameraName

/-- The parsed command line of all three scripts: `--camera-id` (`-c`) and
`--record-length` (`-t`) are optional ints, `--log-frametimes` (`-l`) a
flag. -/
structure Args where
  camera_id : Option Int
  record_length : Option Int
  log_frametimes : Bool
deriving DecidableEq

/-- `get_cam_and_length` (inferencer_example.py lines 128-138; recorder.py
inlines the same logic at lines 105-115).  `selIdx` models the index the
user would pick in the terminal menu and `promptInput` the number the
duration prompt would return; the two Bool flags record whether the camera
selection menu and the duration prompt actually ran.  `none` models the
aborting branches of the interactive path (menu cancelled, or `int()`
failing on the selected camera's id). -/
def get_cam_and_length (args : Args) (cameras : List Camera)
    (selIdx : Nat) (promptInput : Int) :
    Option ((Int × Int) × (Bool × Bool)) :=
  let camPart : Option (Int × Bool) :=
    match args.camera_id with
    | some c => some (c, false)
    | none =>
        (cameras[selIdx]?).bind fun cam =>
          cam.id.toInt?.map fun cid => (cid, true)
  let lenPart : Option (Int × Bool) :=
    match args.record_length with
    | some t => some (t, false)
    | none => some (promptInput, true)
  camPart.bind fun cp => lenPart.map fun tp => ((cp.1, tp.1), (cp.2, tp.2))

/-- The list of frametime values the recorder logs for the arrival instants
of its processed frames: the first value is measured from `prev` (the
instant `last_frame_time` held before the loop started), every later value
from the preceding arrival. -/
def gapsFrom (prev : Int) : List Int → List Int
  | [] => []
  | a :: rest => (a - prev) :: gapsFrom a rest

/-- The value `last_frame_time` holds after a block of frames has been
handled: the arrival instant of the block's last frame, or the incoming
instant when the block is empty. -/
def lastArrival (prev : Int) : List Frame → Int
  | [] => prev
  | f :: rest => lastArrival f.arrival rest

/-- Modelled from the spec: the spec's glossary defines a frametime as the
"elapsed wall-clock time between two consecutively arrived frames", so the
frametimes of an arrival sequence, following the spec's words, are the gaps
between consecutive arrivals — one fewer than there are frames.  This
definition exists to be compared with the log recorder.py produces. -/
def specConsecGaps (arrivals : List Int) : List Int :=
  List.zipWith (fun b a => b - a) arrivals.tail arrivals

/-- Every branch of the recorder loop runs the `finally` block exactly once
and lets the script fall off its end: `video_writer.release()` happens once
and the process exit status is 0, on every path. -/
theorem recorderLoop_const (rl st : Int) (log : Bool) :
    ∀ (frames : List Frame) (errAfter : Bool) (count : Nat) (last : Int)
      (processed : List Frame) (written : List Nat) (lines : List Int),
      (recorderLoop rl st log frames errAfter count last processed written
          lines).finalizeCalls = 1 ∧
      (recorderLoop rl st log frames errAfter count last processed written
          lines).exitCode = 0 := by
  intro frames
  induction frames with
  | nil => intro _ _ _ _ _ _; exact ⟨rfl, rfl⟩
  | cons f rest ih =>
      intro errAfter count last processed written lines
      cases hd : f.decodeOk with
      | true =>
          by_cases h2 : rl < f.arrival - st
          · simp [recorderLoop, hd, h2]
          · simp only [recorderLoop, hd, h2]
            simp only [if_true, if_false, ite_false, ite_true]
            exact ih errAfter (count + 1) f.arrival (processed ++ [f])
              (written ++ [f.payload])
              (if log then lines ++ [f.arrival - last] else lines)
      | false => simp [recorderLoop, hd]

/-- Every branch of the inferencer loop runs the `finally` block exactly
once: `video_writer.release()` and `cv2.destroyAllWindows()` each happen
once and the process exit status is 0, on every path. -/
theorem inferencerLoop_const (rl st : Int) (log : Bool) :
    ∀ (frames : List InfFrame) (errAfter : Bool) (count : Nat) (last : Int)
      (processed : List InfFrame) (written displayed : List Nat)
      (lines : List Int),
      (inferencerLoop rl st log frames errAfter count last processed written
          displayed lines).videoFinalizeCalls = 1 ∧
      (inferencerLoop rl st log frames errAfter count last processed written
          displayed lines).windowFinalizeCalls = 1 ∧
      (inferencerLoop rl st log frames errAfter count last processed written
          displayed lines).exitCode = 0 := by
  intro frames
  induction frames with
  | nil => intro _ _ _ _ _ _ _; exact ⟨rfl, rfl, rfl⟩
  | cons f rest ih =>
      intro errAfter count last processed written displayed lines
      cases hd : f.decodeOk with
      | true =>
          cases hq : f.qKey with
          | true => simp [inferencerLoop, hd, hq]
          | false =>
              by_cases h2 : rl < f.arrival - st
              · simp [inferencerLoop, hd, hq, h2]
              · simp only [inferencerLoop, hd, hq, h2]
                simp only [if_true, if_false, ite_false, ite_true]
                exact ih errAfter (count + 1) f.arrival (processed ++ [f])
                  (written ++ [f.payload]) (displayed ++ [f.payload])
                  (if log then lines ++ [f.arrival - last] else lines)
      | false => simp [inferencerLoop, hd]

/-- The VW2_ONYX loop never tears its display window down and the script
always falls off its end: `cv2.destroyAllWindows()` happens 0 times and the
process exit status is 0, on every path. -/
theorem onyxLoop_const :
    ∀ (frames : List Frame) (errAfter : Bool) (processed : List Frame)
      (displayed : List Nat),
      (onyxLoop frames errAfter processed displayed).windowFinalizeCalls
        = 0 ∧
      (onyxLoop frames errAfter processed displayed).exitCode = 0 := by
  intro frames
  induction frames with
  | nil => intro _ _ _; exact ⟨rfl, rfl⟩
  | cons f rest ih =>
      intro errAfter processed displayed
      cases hd : f.decodeOk with
      | true =>
          simp only [onyxLoop, hd]
          simp only [if_true, ite_true]
          exact ih errAfter (processed ++ [f]) (displayed ++ [f.payload])
      | false => simp [onyxLoop, hd]

/-- C1 counterexample: in VW2_ONYX.py the configured sink is the display
window, and its finalize (`cv2.destroyAllWindows()`) is called 0 times — not
exactly once — even on the normal termination path, shown here on the
session whose stream ends immediately.  The script has no `finally` block. -/
theorem C1_counterexample :
    (onyxRun [] false).windowFinalizeCalls = 0 ∧
    ¬ (onyxRun [] false).windowFinalizeCalls = 1 := by
  exact ⟨rfl, by decide⟩

/-- C1 (amended): in recorder.py the video writer is released exactly once
on every termination path, and in inferencer_example.py the video writer is
released and the display windows destroyed exactly once on every termination
path; in VW2_ONYX.py, however, the display sink is never finalized (0 calls
on every path), because its streaming loop has no `finally` block. -/
theorem C1_finalize_once_amended :
    (∀ (rl st : Int) (log : Bool) (frames : List Frame) (errAfter : Bool),
        (recorderRun rl st log frames errAfter).finalizeCalls = 1) ∧
    (∀ (rl st : Int) (log : Bool) (frames : List InfFrame) (errAfter : Bool),
        (inferencerRun rl st log frames errAfter).videoFinalizeCalls = 1 ∧
        (inferencerRun rl st log frames errAfter).windowFinalizeCalls = 1) ∧
    (∀ (frames : List Frame) (errAfter : Bool),
        (onyxRun frames errAfter).windowFinalizeCalls = 0) := by
  refine ⟨fun rl st log frames errAfter => ?_,
    fun rl st log frames errAfter => ?_, fun frames errAfter => ?_⟩
  · exact (recorderLoop_const rl st log frames errAfter 0 st [] [] []).1
  · exact ⟨(inferencerLoop_const rl st log frames errAfter 0 st [] [] [] []).1,
      (inferencerLoop_const rl st log frames errAfter 0 st [] [] [] []).2.1⟩
  · exact (onyxLoop_const frames errAfter [] []).1

/-- C3 counterexample: when the camera directory call returns HTTP 500, in
both recorder.py and inferencer_example.py the session does fail before any
stream or output file exists, but the process exit status is 0 (bare
`exit()` raises `SystemExit(None)`), not non-zero as the claim states. -/
theorem C3_counterexample :
    (recorderStartup ⟨500, []⟩).streamOpened = false ∧
    (recorderStartup ⟨500, []⟩).outputFileCreated = false ∧
    (recorderStartup ⟨500, []⟩).exitCode = some 0 ∧
    (inferencerStartup ⟨500, []⟩).streamOpened = false ∧
    (inferencerStartup ⟨500, []⟩).outputFileCreated = false ∧
    (inferencerStartup ⟨500, []⟩).exitCode = some 0 := by
  refine ⟨rfl, rfl, rfl, rfl, rfl, rfl⟩

/-- C3 (amended): on any non-success directory status, in both recorder.py
and inferencer_example.py the session fails immediately — no stream is
opened and no output file is created — but the process exits with status 0,
because `fetch_cameras` (identical in both scripts) calls bare `exit()`. -/
theorem C3_directory_failure_amended (resp : DirectoryResponse)
    (h : resp.status ≠ 200) :
    recorderStartup resp
      = { streamOpened := false, outputFileCreated := false,
          exitCode := some 0 } ∧
    inferencerStartup resp
      = { streamOpened := false, outputFileCreated := false,
          exitCode := some 0 } := by
  unfold recorderStartup inferencerStartup fetch_cameras
  simp [h]

/-- C3 witness: the amended claim at the concrete status 404, for both
scripts. -/
theorem C3_witness :
    recorderStartup ⟨404, []⟩
      = { streamOpened := false, outputFileCreated := false,
          exitCode := some 0 } ∧
    inferencerStartup ⟨404, []⟩
      = { streamOpened := false, outputFileCreated := false,
          exitCode := some 0 } :=
  C3_directory_failure_amended ⟨404, []⟩ (by decide)

/-- C7: when both the camera id and the record length are supplied on the
command line, the resolution step returns exactly those values and neither
the camera selection menu nor the duration prompt runs. -/
theorem C7_no_prompt (args : Args) (cameras : List Camera) (selIdx : Nat)
    (promptInput : Int) (c t : Int)
    (hc : args.camera_id = some c) (ht : args.record_length = some t) :
    get_cam_and_length args cameras selIdx promptInput
      = some ((c, t), (false, false)) := by
  unfold get_cam_and_length
  rw [hc, ht]
  rfl

/-- C7 witness: camera id 3 and record length 7 supplied up front. -/
theorem C7_witness :
    get_cam_and_length ⟨some 3, some 7, false⟩ [] 0 0
      = some ((3, 7), (false, false)) :=
  C7_no_prompt ⟨some 3, some 7, false⟩ [] 0 0 3 7 rfl rfl

/-- A successful `List.find?` splits its list at the first element
satisfying the test: everything before the hit fails the test. -/
theorem find_first_of_eq_some {α : Type} (p : α → Bool) :
    ∀ (l : List α) (c : α), l.find? p = some c →
      ∃ pre post, l = pre ++ c :: post ∧ p c = true ∧
        ∀ x ∈ pre, p x = false := by
  intro l
  induction l with
  | nil => intro c h; simp [List.find?] at h
  | cons a l ih =>
      intro c h
      cases hpa : p a with
      | true =>
          rw [List.find?_cons_of_pos _ hpa] at h
          obtain rfl : a = c := Option.some.inj h
          exact ⟨[], l, rfl, hpa, by intro x hx; simp at hx⟩
      | false =>
          rw [List.find?_cons_of_neg _ (by simp [hpa])] at h
          obtain ⟨pre, post, rfl, hc, hpre⟩ := ih c h
          refine ⟨a :: pre, post, rfl, hc, ?_⟩
          intro x hx
          rcases List.mem_cons.mp hx with rfl | hx
          · exact hpa
          · exact hpre x hx

/-- C9: the name lookup returns the name of the first camera whose string
id equals the decimal rendering of the supplied id, returns none when no
camera matches, and in the no-match case the output base name embeds the
literal text "None" instead of failing. -/
theorem C9_name_lookup :
    (∀ (cameras : List Camera) (i : Int),
        camera_name_for_id cameras i = none ↔
          ∀ c ∈ cameras, c.id ≠ toString i) ∧
    (∀ (cameras : List Camera) (i : Int) (n : String),
        camera_name_for_id cameras i = some n →
          ∃ pre c post, cameras = pre ++ c :: post ∧ c.id = toString i ∧
            c.name = n ∧ ∀ c2 ∈ pre, c2.id ≠ toString i) ∧
    (∀ (ts : String) (i : Int),
        file_name ts i none = ts ++ "_id" ++ toString i ++ "_" ++ "None") := by
  refine ⟨fun cameras i => ?_, fun cameras i n h => ?_, fun ts i => rfl⟩
  · simp [camera_name_for_id, Option.map_eq_none', List.find?_eq_none]
  · rw [camera_name_for_id, Option.map_eq_some'] at h
    obtain ⟨cam, hfind, hname⟩ := h
    obtain ⟨pre, post, rfl, hc, hpre⟩ :=
      find_first_of_eq_some (fun c => c.id == toString i) cameras cam hfind
    refine ⟨pre, cam, post, rfl, by simpa using hc, hname, ?_⟩
    intro c2 hc2
    simpa using hpre c2 hc2

/-- C9 witness: a one-camera list whose id "7" does not match the supplied
id 9; the lookup yields none and the file name embeds "None". -/
theorem C9_witness :
    camera_name_for_id [⟨"7", "gate"⟩] 9 = none ∧
    file_name "T" 9 none = "T" ++ "_id" ++ toString (9 : Int) ++ "_" ++
      "None" := by
  exact ⟨(C9_name_lookup.1 [⟨"7", "gate"⟩] 9).mpr (by decide),
    C9_name_lookup.2.2 "T" 9⟩

/-- Consuming a block of frames that all decode and all arrive within the
configured duration neither stops nor errors the recorder loop: the loop
runs on past the block with the counters, the write list and the frametime
log advanced accordingly. -/
theorem recorderLoop_append_ok (rl st : Int) (log : Bool) :
    ∀ (pre rest : List Frame) (errAfter : Bool) (count : Nat) (last : Int)
      (processed : List Frame) (written : List Nat) (lines : List Int),
      (∀ f ∈ pre, f.decodeOk = true) →
      (∀ f ∈ pre, f.arrival - st ≤ rl) →
      recorderLoop rl st log (pre ++ rest) errAfter count last processed
          written lines
        = recorderLoop rl st log rest errAfter (count + pre.length)
            (lastArrival last pre) (processed ++ pre)
            (written ++ pre.map Frame.payload)
            (lines ++ if log then gapsFrom last (pre.map Frame.arrival)
              else []) := by
  intro pre
  induction pre with
  | nil =>
      intro rest errAfter count last processed written lines _ _
      cases log <;> simp [gapsFrom, lastArrival]
  | cons f pre ih =>
      intro rest errAfter count last processed written lines hok hdur
      have hf : f.decodeOk = true := hok f (List.mem_cons_self f pre)
      have hnlt : ¬ rl < f.arrival - st :=
        not_lt.mpr (hdur f (List.mem_cons_self f pre))
      rw [List.cons_append]
      simp only [recorderLoop]
      rw [if_pos hf, if_neg hnlt]
      rw [ih rest errAfter (count + 1) f.arrival (processed ++ [f])
        (written ++ [f.payload])
        (if log then lines ++ [f.arrival - last] else lines)
        (fun g hg => hok g (List.mem_cons_of_mem f hg))
        (fun g hg => hdur g (List.mem_cons_of_mem f hg))]
      cases log <;>
        simp [gapsFrom, lastArrival, List.append_assoc,
          Nat.add_comm, Nat.add_assoc, Nat.add_left_comm]

/-- The recorder loop consumes some prefix of the stream: the processed
frames are a prefix of the arrivals in arrival order, the write list is the
processed frames that decoded, in the same order, and with logging on, the
frametime log holds one value per processed frame, each measured from the
previous instant. -/
theorem recorderLoop_take_spec (rl st : Int) (log : Bool) :
    ∀ (frames : List Frame) (errAfter : Bool) (count : Nat) (last : Int)
      (processed : List Frame) (written : List Nat) (lines : List Int),
      ∃ k,
        (recorderLoop rl st log frames errAfter count last processed written
            lines).processed = processed ++ frames.take k ∧
        (recorderLoop rl st log frames errAfter count last processed written
            lines).written
          = written ++ ((frames.take k).filter (fun f => f.decodeOk)).map
              Frame.payload ∧
        (recorderLoop rl st log frames errAfter count last processed written
            lines).logLines
          = lines ++ if log then
              gapsFrom last ((frames.take k).map Frame.arrival) else [] := by
  intro frames
  induction frames with
  | nil =>
      intro errAfter count last processed written lines
      exact ⟨0, by cases log <;> simp [recorderLoop, gapsFrom]⟩
  | cons f rest ih =>
      intro errAfter count last processed written lines
      cases hd : f.decodeOk with
      | false =>
          refine ⟨1, ?_⟩
          simp only [recorderLoop]
          rw [if_neg (by simp [hd])]
          cases log <;> simp [hd, gapsFrom]
      | true =>
          by_cases h2 : rl < f.arrival - st
          · refine ⟨1, ?_⟩
            simp only [recorderLoop]
            rw [if_pos hd, if_pos h2]
            cases log <;> simp [hd, gapsFrom]
          · obtain ⟨k, h1, hw, hl⟩ := ih errAfter (count + 1) f.arrival
              (processed ++ [f]) (written ++ [f.payload])
              (if log then lines ++ [f.arrival - last] else lines)
            refine ⟨k + 1, ?_, ?_, ?_⟩
            · simp only [recorderLoop]
              rw [if_pos hd, if_neg h2, h1]
              simp [List.append_assoc]
            · simp only [recorderLoop]
              rw [if_pos hd, if_neg h2, hw]
              simp [hd, List.append_assoc]
            · simp only [recorderLoop]
              rw [if_pos hd, if_neg h2, hl]
              cases log <;> simp [gapsFrom, List.append_assoc]

/-- The inferencer loop consumes some prefix of the stream: processed frames
are a prefix of the arrivals, and each processed frame that decoded was both
written and displayed, in order. -/
theorem inferencerLoop_take_spec (rl st : Int) (log : Bool) :
    ∀ (frames : List InfFrame) (errAfter : Bool) (count : Nat) (last : Int)
      (processed : List InfFrame) (written displayed : List Nat)
      (lines : List Int),
      ∃ k,
        (inferencerLoop rl st log frames errAfter count last processed
            written displayed lines).processed
          = processed ++ frames.take k ∧
        (inferencerLoop rl st log frames errAfter count last processed
            written displayed lines).written
          = written ++ ((frames.take k).filter (fun f => f.decodeOk)).map
              InfFrame.payload ∧
        (inferencerLoop rl st log frames errAfter count last processed
            written displayed lines).displayed
          = displayed ++ ((frames.take k).filter (fun f => f.decodeOk)).map
              InfFrame.payload := by
  intro frames
  induction frames with
  | nil =>
      intro errAfter count last processed written displayed lines
      exact ⟨0, by simp [inferencerLoop]⟩
  | cons f rest ih =>
      intro errAfter count last processed written displayed lines
      cases hd : f.decodeOk with
      | false =>
          refine ⟨1, ?_⟩
          simp only [inferencerLoop]
          rw [if_neg (by simp [hd])]
          simp [hd]
      | true =>
          cases hq : f.qKey with
          | true =>
              refine ⟨1, ?_⟩
              simp only [inferencerLoop]
              rw [if_pos hd, if_pos hq]
              simp [hd]
          | false =>
              by_cases h2 : rl < f.arrival - st
              · refine ⟨1, ?_⟩
                simp only [inferencerLoop]
                rw [if_pos hd, if_neg (by simp [hq]), if_pos h2]
                simp [hd]
              · obtain ⟨k, h1, hw, hdisp⟩ := ih errAfter (count + 1)
                  f.arrival (processed ++ [f]) (written ++ [f.payload])
                  (displayed ++ [f.payload])
                  (if log then lines ++ [f.arrival - last] else lines)
                refine ⟨k + 1, ?_, ?_, ?_⟩
                · simp only [inferencerLoop]
                  rw [if_pos hd, if_neg (by simp [hq]), if_neg h2, h1]
                  simp [List.append_assoc]
                · simp only [inferencerLoop]
                  rw [if_pos hd, if_neg (by simp [hq]), if_neg h2, hw]
                  simp [hd, List.append_assoc]
                · simp only [inferencerLoop]
                  rw [if_pos hd, if_neg (by simp [hq]), if_neg h2, hdisp]
                  simp [hd, List.append_assoc]

/-- C2 counterexample: one frame out of three fails to decode; the session
does NOT log-and-skip: only the one frame before the bad one is written, the
third frame is lost, and the loop ends on the exception path instead of
completing normally. -/
theorem C2_counterexample :
    (recorderRun 100 0 false
        [⟨1, 10, true⟩, ⟨2, 20, false⟩, ⟨3, 30, true⟩] false).written
      = [10] ∧
    (recorderRun 100 0 false
        [⟨1, 10, true⟩, ⟨2, 20, false⟩, ⟨3, 30, true⟩] false).reason
      = Reason.errored ∧
    (30 : Nat) ∉ (recorderRun 100 0 false
        [⟨1, 10, true⟩, ⟨2, 20, false⟩, ⟨3, 30, true⟩] false).written := by
  refine ⟨rfl, rfl, by decide⟩

/-- C2 (amended): a decode failure is NOT skipped — `video_writer.write`
raises on the `None` image and, with no per-frame handler, the exception
ends the streaming loop at the bad frame: exactly the frames before it are
written, the loop ends on the exception path, the exception is caught and
only printed, the sink is still finalized once and the process exits 0. -/
theorem C2_decode_failure_amended (rl st : Int) (log : Bool)
    (pre : List Frame) (bad : Frame) (post : List Frame)
    (hok : ∀ f ∈ pre, f.decodeOk = true)
    (hdur : ∀ f ∈ pre, f.arrival - st ≤ rl)
    (hbad : bad.decodeOk = false) :
    (recorderRun rl st log (pre ++ bad :: post) false).written
        = pre.map Frame.payload ∧
    (recorderRun rl st log (pre ++ bad :: post) false).reason
        = Reason.errored ∧
    (recorderRun rl st log (pre ++ bad :: post) false).count = pre.length ∧
    (recorderRun rl st log (pre ++ bad :: post) false).finalizeCalls = 1 ∧
    (recorderRun rl st log (pre ++ bad :: post) false).exitCode = 0 := by
  unfold recorderRun
  rw [recorderLoop_append_ok rl st log pre (bad :: post) false 0 st [] [] []
    hok hdur]
  simp only [recorderLoop]
  rw [if_neg (by simp [hbad])]
  simp

/-- C2 witness: the amended claim on a concrete three-frame stream whose
middle frame fails to decode. -/
theorem C2_witness :
    (recorderRun 100 0 false
        ([⟨1, 10, true⟩] ++ ⟨2, 20, false⟩ :: [⟨3, 30, true⟩]) false).written
      = [10] ∧
    (recorderRun 100 0 false
        ([⟨1, 10, true⟩] ++ ⟨2, 20, false⟩ :: [⟨3, 30, true⟩]) false).reason
      = Reason.errored := by
  have h := C2_decode_failure_amended 100 0 false [⟨1, 10, true⟩]
    ⟨2, 20, false⟩ [⟨3, 30, true⟩] (by decide) (by decide) rfl
  exact ⟨h.1, h.2.1⟩

/-- C4 counterexample: a transport error while iterating ends the loop on
the exception path, but the error does not propagate to the CLI boundary
with a non-zero exit status: the `except` handler swallows it and the
process exits 0. -/
theorem C4_counterexample :
    (recorderRun 10 0 false [] true).reason = Reason.errored ∧
    (recorderRun 10 0 false [] true).exitCode = 0 := ⟨rfl, rfl⟩

/-- C4 (amended): a transport-level error while iterating is fatal to the
session — the loop ends on the exception path, the stream is not retried,
everything captured before the error stays written and the sink is still
finalized exactly once — but the error is caught at the loop boundary,
where only a traceback is printed, and the process exits 0, not non-zero. -/
theorem C4_stream_error_amended (rl st : Int) (log : Bool)
    (frames : List Frame)
    (hok : ∀ f ∈ frames, f.decodeOk = true)
    (hdur : ∀ f ∈ frames, f.arrival - st ≤ rl) :
    (recorderRun rl st log frames true).reason = Reason.errored ∧
    (recorderRun rl st log frames true).written = frames.map Frame.payload ∧
    (recorderRun rl st log frames true).finalizeCalls = 1 ∧
    (recorderRun rl st log frames true).exitCode = 0 := by
  have h := recorderLoop_append_ok rl st log frames [] true 0 st [] [] []
    hok hdur
  rw [List.append_nil] at h
  unfold recorderRun
  rw [h]
  simp [recorderLoop]

/-- C4 witness: the amended claim on a one-frame stream followed by a
transport error. -/
theorem C4_witness :
    (recorderRun 10 0 false [⟨1, 5, true⟩] true).reason = Reason.errored ∧
    (recorderRun 10 0 false [⟨1, 5, true⟩] true).written = [5] := by
  have h := C4_stream_error_amended 10 0 false [⟨1, 5, true⟩]
    (by decide) (by decide)
  exact ⟨h.1, h.2.1⟩

/-- Whenever the recorder loop stops because the duration was exceeded, the
stopping frame's instant lies strictly more than the configured record
length after the start instant. -/
theorem recorderLoop_durationExceeded (rl st : Int) (log : Bool) :
    ∀ (frames : List Frame) (errAfter : Bool) (count : Nat) (last : Int)
      (processed : List Frame) (written : List Nat) (lines : List Int),
      (recorderLoop rl st log frames errAfter count last processed written
          lines).reason = Reason.durationExceeded →
      rl < (recorderLoop rl st log frames errAfter count last processed
          written lines).endTime - st := by
  intro frames
  induction frames with
  | nil =>
      intro errAfter count last processed written lines h
      cases errAfter <;> simp [recorderLoop] at h
  | cons f rest ih =>
      intro errAfter count last processed written lines h
      cases hd : f.decodeOk with
      | false =>
          simp only [recorderLoop] at h
          rw [if_neg (by simp [hd])] at h
          simp at h
      | true =>
          by_cases h2 : rl < f.arrival - st
          · simp only [recorderLoop]
            rw [if_pos hd, if_pos h2]
            exact h2
          · simp only [recorderLoop] at h ⊢
            rw [if_pos hd, if_neg h2] at h ⊢
            exact ih errAfter (count + 1) f.arrival (processed ++ [f])
              (written ++ [f.payload])
              (if log then lines ++ [f.arrival - last] else lines) h

/-- Whenever the inferencer loop stops because the duration was exceeded,
the stopping frame's instant lies strictly more than the configured record
length after the start instant. -/
theorem inferencerLoop_durationExceeded (rl st : Int) (log : Bool) :
    ∀ (frames : List InfFrame) (errAfter : Bool) (count : Nat) (last : Int)
      (processed : List InfFrame) (written displayed : List Nat)
      (lines : List Int),
      (inferencerLoop rl st log frames errAfter count last processed written
          displayed lines).reason = Reason.durationExceeded →
      rl < (inferencerLoop rl st log frames errAfter count last processed
          written displayed lines).endTime - st := by
  intro frames
  induction frames with
  | nil =>
      intro errAfter count last processed written displayed lines h
      cases errAfter <;> simp [inferencerLoop] at h
  | cons f rest ih =>
      intro errAfter count last processed written displayed lines h
      cases hd : f.decodeOk with
      | false =>
          simp only [inferencerLoop] at h
          rw [if_neg (by simp [hd])] at h
          simp at h
      | true =>
          cases hq : f.qKey with
          | true =>
              simp only [inferencerLoop] at h
              rw [if_pos hd, if_pos hq] at h
              simp at h
          | false =>
              by_cases h2 : rl < f.arrival - st
              · simp only [inferencerLoop]
                rw [if_pos hd, if_neg (by simp [hq]), if_pos h2]
                exact h2
              · simp only [inferencerLoop] at h ⊢
                rw [if_pos hd, if_neg (by simp [hq]), if_neg h2] at h ⊢
                exact ih errAfter (count + 1) f.arrival (processed ++ [f])
                  (written ++ [f.payload]) (displayed ++ [f.payload])
                  (if log then lines ++ [f.arrival - last] else lines) h

/-- C5: in both recorder.py and inferencer_example.py, whenever a session
terminates with reason duration-exceeded, the elapsed wall-clock time since
stream start is at least the configured record duration (the code in fact
guarantees strictly greater, because the check
`time.time() - start_time > record_length` runs after each frame is
processed); neither loop ever stops for that reason earlier. -/
theorem C5_duration_exceeded :
    (∀ (rl st : Int) (log : Bool) (frames : List Frame) (errAfter : Bool),
      (recorderRun rl st log frames errAfter).reason
          = Reason.durationExceeded →
      rl ≤ (recorderRun rl st log frames errAfter).endTime - st) ∧
    (∀ (rl st : Int) (log : Bool) (frames : List InfFrame)
        (errAfter : Bool),
      (inferencerRun rl st log frames errAfter).reason
          = Reason.durationExceeded →
      rl ≤ (inferencerRun rl st log frames errAfter).endTime - st) := by
  constructor
  · intro rl st log frames errAfter h
    exact le_of_lt
      (recorderLoop_durationExceeded rl st log frames errAfter 0 st [] [] []
        h)
  · intro rl st log frames errAfter h
    exact le_of_lt
      (inferencerLoop_durationExceeded rl st log frames errAfter 0 st []
        [] [] [] h)

/-- C5 witness: in each script, one frame arriving at instant 20 with
duration 5 ends the session by duration, and the elapsed time 20 is at
least 5. -/
theorem C5_witness :
    (5 : Int) ≤ (recorderRun 5 0 false [⟨20, 1, true⟩] false).endTime - 0 ∧
    (5 : Int) ≤ (inferencerRun 5 0 false [⟨20, 1, true, false⟩]
        false).endTime - 0 :=
  ⟨C5_duration_exceeded.1 5 0 false [⟨20, 1, true⟩] false (by decide),
   C5_duration_exceeded.2 5 0 false [⟨20, 1, true, false⟩] false
     (by decide)⟩

/-- C6: the runner dispatches frames to the sinks synchronously in arrival
order — in both recorder.py and inferencer_example.py the processed frames
are a prefix of the arrival sequence, the frames written are exactly the
processed frames that decoded, in the same order (the runner itself drops
nothing; only a decode failure loses a frame, at the sink), and in the
inferencer every written frame is also displayed, in the same order. -/
theorem C6_in_order_dispatch :
    (∀ (rl st : Int) (log : Bool) (frames : List Frame) (errAfter : Bool),
      ∃ k,
        (recorderRun rl st log frames errAfter).processed = frames.take k ∧
        (recorderRun rl st log frames errAfter).written
          = ((recorderRun rl st log frames errAfter).processed.filter
              (fun f => f.decodeOk)).map Frame.payload) ∧
    (∀ (rl st : Int) (log : Bool) (frames : List InfFrame)
        (errAfter : Bool),
      ∃ k,
        (inferencerRun rl st log frames errAfter).processed
          = frames.take k ∧
        (inferencerRun rl st log frames errAfter).written
          = ((inferencerRun rl st log frames errAfter).processed.filter
              (fun f => f.decodeOk)).map InfFrame.payload ∧
        (inferencerRun rl st log frames errAfter).displayed
          = (inferencerRun rl st log frames errAfter).written) := by
  constructor
  · intro rl st log frames errAfter
    obtain ⟨k, h1, hw, _⟩ :=
      recorderLoop_take_spec rl st log frames errAfter 0 st [] [] []
    refine ⟨k, by simpa using h1, ?_⟩
    unfold recorderRun
    rw [hw, h1]
    simp
  · intro rl st log frames errAfter
    obtain ⟨k, h1, hw, hdisp⟩ :=
      inferencerLoop_take_spec rl st log frames errAfter 0 st [] [] [] []
    refine ⟨k, by simpa using h1, ?_, ?_⟩
    · unfold inferencerRun
      rw [hw, h1]
      simp
    · unfold inferencerRun
      rw [hw, hdisp]

/-- The frametime log and the processed-frame list grow in lockstep: the
gaps list has one entry per arrival. -/
theorem gapsFrom_length : ∀ (prev : Int) (l : List Int),
    (gapsFrom prev l).length = l.length := by
  intro prev l
  induction l generalizing prev with
  | nil => rfl
  | cons a rest ih => simp [gapsFrom, ih]

/-- C8 counterexample: with logging on and two frames arriving at instants 3
and 4 (loop start at 0), the log is [3, 1]: two lines for two frames, but
the first value 3 is the elapsed time since loop start, not the elapsed time
between two consecutively arrived frames — the only such gap is 1 — and the
log is one line longer than the list of inter-frame gaps. -/
theorem C8_counterexample :
    (recorderRun 100 0 true [⟨3, 1, true⟩, ⟨4, 2, true⟩] false).logLines
      = [3, 1] ∧
    specConsecGaps
        ((recorderRun 100 0 true [⟨3, 1, true⟩, ⟨4, 2, true⟩]
          false).processed.map Frame.arrival) = [1] ∧
    (3 : Int) ∉ specConsecGaps
        ((recorderRun 100 0 true [⟨3, 1, true⟩, ⟨4, 2, true⟩]
          false).processed.map Frame.arrival) ∧
    (recorderRun 100 0 true [⟨3, 1, true⟩, ⟨4, 2, true⟩]
        false).logLines.length
      ≠ (specConsecGaps
          ((recorderRun 100 0 true [⟨3, 1, true⟩, ⟨4, 2, true⟩]
            false).processed.map Frame.arrival)).length := by
  decide

/-- C8 (amended): with frametime logging enabled, the log holds exactly one
elapsed-seconds value per processed frame, written in arrival order, where
the FIRST value is the elapsed time from just before the loop started
(`last_frame_time` is initialized to the stream-start instant) to the first
frame, and every subsequent value is the elapsed time since the immediately
preceding arrived frame. -/
theorem C8_frametime_log_amended (rl st : Int) (frames : List Frame)
    (errAfter : Bool) :
    (recorderRun rl st true frames errAfter).logLines
      = gapsFrom st
          ((recorderRun rl st true frames errAfter).processed.map
            Frame.arrival) ∧
    (recorderRun rl st true frames errAfter).logLines.length
      = (recorderRun rl st true frames errAfter).processed.length := by
  obtain ⟨k, h1, _, hl⟩ :=
    recorderLoop_take_spec rl st true frames errAfter 0 st [] [] []
  constructor
  · unfold recorderRun
    rw [hl, h1]
    simp
  · unfold recorderRun
    rw [hl, h1]
    simp [gapsFrom_length]

/-- On the user-stop exit path of the inferencer loop, the written and
displayed lists are one longer than the final frame count, provided they
matched the count when the loop was entered. -/
theorem inferencerLoop_userStop (rl st : Int) (log : Bool) :
    ∀ (frames : List InfFrame) (errAfter : Bool) (count : Nat) (last : Int)
      (processed : List InfFrame) (written displayed : List Nat)
      (lines : List Int),
      written.length = count → displayed.length = count →
      (inferencerLoop rl st log frames errAfter count last processed written
          displayed lines).reason = Reason.userStop →
      (inferencerLoop rl st log frames errAfter count last processed written
          displayed lines).written.length
        = (inferencerLoop rl st log frames errAfter count last processed
            written displayed lines).count + 1 ∧
      (inferencerLoop rl st log frames errAfter count last processed written
          displayed lines).displayed.length
        = (inferencerLoop rl st log frames errAfter count last processed
            written displayed lines).count + 1 := by
  intro frames
  induction frames with
  | nil =>
      intro errAfter count last processed written displayed lines _ _ h
      cases errAfter <;> simp [inferencerLoop] at h
  | cons f rest ih =>
      intro errAfter count last processed written displayed lines hw hd0 h
      cases hd : f.decodeOk with
      | false =>
          simp only [inferencerLoop] at h
          rw [if_neg (by simp [hd])] at h
          simp at h
      | true =>
          cases hq : f.qKey with
          | true =>
              simp only [inferencerLoop] at h ⊢
              rw [if_pos hd, if_pos hq] at h ⊢
              simp [hw, hd0]
          | false =>
              by_cases h2 : rl < f.arrival - st
              · simp only [inferencerLoop] at h
                rw [if_pos hd, if_neg (by simp [hq]), if_pos h2] at h
                simp at h
              · simp only [inferencerLoop] at h ⊢
                rw [if_pos hd, if_neg (by simp [hq]), if_neg h2] at h ⊢
                exact ih errAfter (count + 1) f.arrival (processed ++ [f])
                  (written ++ [f.payload]) (displayed ++ [f.payload])
                  (if log then lines ++ [f.arrival - last] else lines)
                  (by simp [hw]) (by simp [hd0]) h

/-- C10: when the inferencer session ends via the q key, the frame of that
final iteration was written to the video file and displayed but excluded
from the reported count: the written and displayed lists are exactly one
longer than the count the summary prints. -/
theorem C10_qstop_count (rl st : Int) (log : Bool) (frames : List InfFrame)
    (errAfter : Bool)
    (h : (inferencerRun rl st log frames errAfter).reason
          = Reason.userStop) :
    (inferencerRun rl st log frames errAfter).written.length
        = (inferencerRun rl st log frames errAfter).count + 1 ∧
    (inferencerRun rl st log frames errAfter).displayed.length
        = (inferencerRun rl st log frames errAfter).count + 1 :=
  inferencerLoop_userStop rl st log frames errAfter 0 st [] [] [] []
    rfl rfl h

/-- C10 witness: a single frame during which the q key is down; it is
written and displayed while the reported count stays 0. -/
theorem C10_witness :
    (inferencerRun 100 0 false [⟨1, 5, true, true⟩] false).written.length
        = (inferencerRun 100 0 false [⟨1, 5, true, true⟩] false).count + 1 ∧
    (inferencerRun 100 0 false [⟨1, 5, true, true⟩] false).displayed.length
        = (inferencerRun 100 0 false [⟨1, 5, true, true⟩] false).count + 1 :=
  C10_qstop_count 100 0 false [⟨1, 5, true, true⟩] false (by decide)

end VW2
